import Mathlib

/-!
Verification of the Build Orchestration Pipeline of the product-builder
repository (server/services: orchestrator, validator, aiPlanner).

The JavaScript source is shallowly embedded: JS numbers are modelled as
rationals (`Rat`), possibly-absent object fields as `Option`, thrown
exceptions as `Except`, and a child process's observable behaviour as an
explicit `WorkerBehavior` value (the orchestrator only ever sees the exit
code, the two streams, and spawn failure).  An invocation that never
settles (a worker that never terminates) is modelled as `none` in
`Option (Except ...)`.
-/

namespace ProductBuilder

/-! ## JavaScript-flavoured string helpers (structural, kernel-computable) -/

/-- Is the first list a prefix of the second (on characters)? -/
def isPrefixL : List Char → List Char → Bool
  | [], _ => true
  | _ :: _, [] => false
  | a :: as, b :: bs => a == b && isPrefixL as bs

/-- Does `sub` occur contiguously inside the second list? -/
def containsL (sub : List Char) : List Char → Bool
  | [] => isPrefixL sub []
  | s :: rest => isPrefixL sub (s :: rest) || containsL sub rest

/-- JS `s.includes(sub)`. -/
def strContains (s sub : String) : Bool := containsL sub.data s.data

/-- Split a character list on the newline character (JS `s.split('\n')`). -/
def splitNlAux (cur : List Char) : List Char → List (List Char)
  | [] => [cur.reverse]
  | c :: rest =>
    if c == '\n' then cur.reverse :: splitNlAux [] rest
    else splitNlAux (c :: cur) rest

/-- JS `s.split('\n')` as a list of lines. -/
def strLines (s : String) : List String :=
  (splitNlAux [] s.data).map (fun l => String.mk l)

/-- Split a character list on the colon character (JS `s.split(':')`). -/
def splitColonAux (cur : List Char) : List Char → List (List Char)
  | [] => [cur.reverse]
  | c :: rest =>
    if c == ':' then cur.reverse :: splitColonAux [] rest
    else splitColonAux (c :: cur) rest

/-- JS `s.split(':')`. -/
def strSplitColon (s : String) : List String :=
  (splitColonAux [] s.data).map (fun l => String.mk l)

/-- Whitespace as matched by the JS regexes and `trim` used in the source. -/
def isWsChar (c : Char) : Bool :=
  c == ' ' || c == '\t' || c == '\n' || c == '\r'

/-- JS `s.trim()`. -/
def strTrim (s : String) : String :=
  String.mk (((s.data.dropWhile isWsChar).reverse.dropWhile isWsChar).reverse)

/-- Replace each maximal run of whitespace by one underscore
(JS `s.replace(/\s+/g, "_")`). -/
def replWsAux (inWs : Bool) : List Char → List Char
  | [] => []
  | c :: rest =>
    if isWsChar c then
      if inWs then replWsAux true rest else '_' :: replWsAux true rest
    else c :: replWsAux false rest

/-- JS `s.replace(/\s+/g, "_")`. -/
def replWs (s : String) : String := String.mk (replWsAux false s.data)

/-- ASCII lower-casing (JS `toLowerCase` restricted to the ASCII range,
which is all the source compares against). -/
def jsToLower (s : String) : String :=
  String.mk (s.data.map (fun c =>
    if 'A' ≤ c && c ≤ 'Z' then Char.ofNat (c.toNat + 32) else c))

/-- Join strings with a separator (JS `array.join(sep)`). -/
def joinSep (sep : String) : List String → String
  | [] => ""
  | [x] => x
  | x :: y :: rest => x ++ sep ++ joinSep sep (y :: rest)

/-- JS number formatting for the integral rationals that reach the
messages the development inspects (a non-integral value is printed as a
fraction, where JS would print a decimal expansion). -/
def jsNum (q : Rat) : String :=
  if q.den == 1 then toString q.num
  else toString q.num ++ "/" ++ toString q.den

/-! ## JS truthiness on optional fields -/

/-- Truthiness of a possibly-absent string field. -/
def truthyS : Option String → Bool
  | none => false
  | some s => !(s == "")

/-- Truthiness of a possibly-absent numeric field. -/
def truthyQ : Option Rat → Bool
  | none => false
  | some q => !(q == 0)

/-- Truthiness of a possibly-absent boolean field. -/
def truthyB : Option Bool → Bool
  | none => false
  | some b => b

/-- JS `o || d` on a string-valued field. -/
def jsOrS (o : Option String) (d : String) : String :=
  if truthyS o then o.getD d else d

/-- JS `o || d` on a number-valued field. -/
def jsOrQ (o : Option Rat) (d : Rat) : Rat :=
  if truthyQ o then o.getD d else d

/-- JS `o || d` on a natural-number-valued field. -/
def jsOrN (o : Option Nat) (d : Nat) : Nat :=
  match o with
  | none => d
  | some n => if n == 0 then d else n

/-! ## Data model (the Design Document as consumed by the pipeline) -/

/-- A cutout specification; the pipeline only ever counts cutouts. -/
inductive Cutout where
  | mk : Cutout
deriving DecidableEq

/-- The `pcb_details` block of a design document. -/
structure PcbDetails where
  width : Option Rat := none
  height : Option Rat := none
  layers : Option Nat := none
  components : Option (List String) := none
deriving DecidableEq

/-- One entry of an assembly's `parts[]` array. -/
structure Part where
  name : Option String := none
  part_name : Option String := none
  part_number : Option Int := none
  shape_type : Option String := none
  length : Option Rat := none
  width : Option Rat := none
  height : Option Rat := none
  diameter : Option Rat := none
  size : Option Rat := none
  dimensions : List (String × Rat) := []
  wall_thickness : Option Rat := none
  material : Option String := none
  quantity : Option Nat := none
  features : Option (List String) := none
  cutouts : Option (List Cutout) := none
deriving DecidableEq

/-- The `assembly` block read by the orchestrator
(`designData.assembly.is_assembly`, `.parts`, metadata fields). -/
structure AssemblyBlock where
  is_assembly : Bool := false
  parts : Option (List Part) := none
  print_settings : Option (List (String × String)) := none
  hardware : Option (List String) := none
  assembly_steps : Option (List String) := none
  tools_required : Option (List String) := none
  assembly_time_minutes : Option Rat := none
  total_print_time_hours : Option Rat := none
deriving DecidableEq

/-- A design document as produced by the AI planner and consumed by the
validator, the compatibility checker and the orchestrator.  Absent JSON
fields are `none`. -/
structure DesignData where
  product_type : Option String := none
  shape_type : Option String := none
  units : Option String := none
  material : Option String := none
  wall_thickness : Option Rat := none
  length : Option Rat := none
  width : Option Rat := none
  height : Option Rat := none
  diameter : Option Rat := none
  size : Option Rat := none
  diameter_base : Option Rat := none
  base_diameter : Option Rat := none
  teeth : Option Rat := none
  module : Option Rat := none
  base_length : Option Rat := none
  base_width : Option Rat := none
  hook_depth : Option Rat := none
  hinge_length : Option Rat := none
  is_assembly : Option Bool := none
  parts : Option (List Part) := none
  assembly : Option AssemblyBlock := none
  pcb_required : Option Bool := none
  pcb_details : Option PcbDetails := none
  cutouts : Option (List Cutout) := none
  use_design_language : Option Bool := none
deriving DecidableEq

/-! ## Validator (`server/services/validator.js`, `validateDesignData`) -/

/-- The thrown `ValidationError`: a message plus the first violated field. -/
structure ValidationError where
  message : String
  field : String
deriving DecidableEq

/-- `VALIDATION_RULES.wall_thickness.min_mm`. -/
def wall_min_mm : Rat := mkRat 3 2

/-- `VALIDATION_RULES.wall_thickness.min_inches`. -/
def wall_min_inches : Rat := mkRat 6 100

/-- `VALIDATION_RULES.dimensions` bounds (mm). -/
def dim_min_mm : Rat := 1

/-- Maximal dimension in mm. -/
def dim_max_mm : Rat := 2000

/-- Minimal dimension in inches. -/
def dim_min_inches : Rat := mkRat 4 100

/-- Maximal dimension in inches. -/
def dim_max_inches : Rat := 80

/-- Base required fields (`product_type`, `units`), aggregated. -/
def baseFieldErrors (d : DesignData) : List (String × String) :=
  (if !truthyS d.product_type then
    [("product_type", "Missing required field: product_type")] else []) ++
  (if !truthyS d.units then
    [("units", "Missing required field: units")] else [])

/-- Per-part required-field errors of the validator's assembly branch
(`parts.forEach((part, idx) => ...)`). -/
def partFieldErrors (idx : Nat) (p : Part) : List (String × String) :=
  let i1 := toString (idx + 1)
  let ix := toString idx
  (if !truthyS p.name then
    [("parts[" ++ ix ++ "].name", "Part " ++ i1 ++ " missing name")] else []) ++
  (if !truthyS p.shape_type then
    [("parts[" ++ ix ++ "].shape_type", "Part " ++ i1 ++ " missing shape_type")] else []) ++
  (if !truthyQ p.length && !truthyQ p.width && !truthyQ p.height &&
      !truthyQ p.diameter && !truthyQ p.size then
    [("parts[" ++ ix ++ "]",
      "Part " ++ i1 ++ " (" ++ jsOrS p.name "unnamed" ++ ") missing dimensions")]
   else [])

/-- Fold `partFieldErrors` over the parts array with its index. -/
def partsFieldErrorsFrom (idx : Nat) : List Part → List (String × String)
  | [] => []
  | p :: rest => partFieldErrors idx p ++ partsFieldErrorsFrom (idx + 1) rest

/-- Shape categories used by the validator's single-part branch. -/
def cylindricalShapes : List String :=
  ["cylinder", "shaft", "bottle", "cup", "pen_holder", "planter", "coaster"]

/-- Spherical shape category. -/
def sphericalShapes : List String := ["sphere", "dome", "bowl"]

/-- Conical shape category. -/
def conicalShapes : List String := ["cone", "vase", "funnel"]

/-- Gear shape category. -/
def gearShapes : List String := ["gear", "spur_gear", "helical_gear", "bevel_gear"]

/-- Custom-template shape category. -/
def customShapes : List String :=
  ["phone_stand", "cable_clip", "cable_holder", "cable_spiral", "cable_channel",
   "living_hinge", "pin_hinge", "snap_hinge", "piano_hinge", "hook"]

/-- Required-field errors of the validator's single-part branch; the shape
category decides which dimensional fields are demanded. -/
def singleShapeErrors (d : DesignData) : List (String × String) :=
  let shapeType := jsOrS d.shape_type "box"
  if cylindricalShapes.contains shapeType then
    (if !truthyQ d.diameter && !truthyQ d.width then
      [("diameter", "Cylindrical shapes require diameter")] else []) ++
    (if !truthyQ d.length && !truthyQ d.height then
      [("length", "Cylindrical shapes require length or height")] else [])
  else if sphericalShapes.contains shapeType then
    (if !truthyQ d.diameter && !truthyQ d.width then
      [("diameter", "Spherical shapes require diameter")] else [])
  else if conicalShapes.contains shapeType then
    (if !truthyQ d.diameter_base && !truthyQ d.base_diameter && !truthyQ d.diameter then
      [("diameter", "Conical shapes require diameter")] else []) ++
    (if !truthyQ d.height && !truthyQ d.length then
      [("height", "Conical shapes require height")] else [])
  else if gearShapes.contains shapeType then
    (if !truthyQ d.teeth then
      [("teeth", "Gears require teeth count")] else []) ++
    (if !truthyQ d.module && !truthyQ d.diameter then
      [("module", "Gears require module or diameter")] else [])
  else if customShapes.contains shapeType then
    (if !truthyQ d.length && !truthyQ d.width && !truthyQ d.height &&
        !truthyQ d.diameter && !truthyQ d.base_length && !truthyQ d.base_width &&
        !truthyQ d.hook_depth && !truthyQ d.hinge_length then
      [("dimensions", "Shape type " ++ shapeType ++ " requires dimensions")] else [])
  else if shapeType == "box" then
    (if d.length == none then
      [("length", "Missing required dimension: length")] else []) ++
    (if d.width == none then
      [("width", "Missing required dimension: width")] else []) ++
    (if d.height == none then
      [("height", "Missing required dimension: height")] else [])
  else
    (if !truthyQ d.length && !truthyQ d.width && !truthyQ d.height &&
        !truthyQ d.diameter && !truthyQ d.size then
      [("dimensions", "Shape type " ++ shapeType ++ " requires at least one dimension")]
     else [])

/-- Does the validator take its assembly branch
(`designData.is_assembly && designData.parts && Array.isArray(...)`)? -/
def validatorAssemblyBranch (d : DesignData) : Bool :=
  truthyB d.is_assembly && d.parts.isSome

/-- All violations collected by the validator's aggregating first phase
(missing required fields). -/
def missingFieldErrors (d : DesignData) : List (String × String) :=
  baseFieldErrors d ++
  (if validatorAssemblyBranch d then
    partsFieldErrorsFrom 0 (d.parts.getD [])
   else singleShapeErrors d)

/-- Fail-fast range check of the dimensional fields that are present
(`for (const dim of dims) ... throw`). -/
def checkDimsLoop (units : String) (isMetric : Bool) :
    List (String × Option Rat) → Except ValidationError Unit
  | [] => Except.ok ()
  | (dim, val) :: rest =>
    match val with
    | none => checkDimsLoop units isMetric rest
    | some v =>
      let lo := if isMetric then dim_min_mm else dim_min_inches
      let hi := if isMetric then dim_max_mm else dim_max_inches
      if v < lo || v > hi then
        Except.error
          { message := dim ++ " (" ++ jsNum v ++ units ++ ") Dimensions out of reasonable range"
            field := dim }
      else checkDimsLoop units isMetric rest

/-- The dimensional fields scanned by the range check, in source order. -/
def dimFields (d : DesignData) : List (String × Option Rat) :=
  [("length", d.length), ("width", d.width), ("height", d.height),
   ("diameter", d.diameter), ("size", d.size)]

/-- `validateDesignData` (server/services/validator.js): aggregate all
missing-field violations into one `ValidationError`; then check units,
then fail-fast range checks on present dimensions, wall thickness and the
PCB block. -/
def validateDesignData (d : DesignData) : Except ValidationError Unit :=
  match missingFieldErrors d with
  | e :: rest =>
    Except.error
      { message := "Validation failed: " ++ joinSep ", " ((e :: rest).map Prod.snd)
        field := e.fst }
  | [] =>
    if !((["mm", "inches"] : List String).contains (d.units.getD "")) then
      Except.error { message := "Units must be either mm or inches", field := "units" }
    else
      let isMetric := d.units == some "mm"
      let units := d.units.getD ""
      match checkDimsLoop units isMetric (dimFields d) with
      | Except.error er => Except.error er
      | Except.ok _ =>
        if truthyQ d.wall_thickness &&
           d.wall_thickness.getD 0 < (if isMetric then wall_min_mm else wall_min_inches) then
          Except.error
            { message := "Wall thickness (" ++ jsNum (d.wall_thickness.getD 0) ++ units ++
                         ") Wall thickness too thin for manufacturing"
              field := "wall_thickness" }
        else if truthyB d.pcb_required && d.pcb_details.isSome then
          let pcb := d.pcb_details.getD {}
          if !truthyQ pcb.width || !truthyQ pcb.height then
            Except.error
              { message := "PCB dimensions (width, height) required when pcb_required is true"
                field := "pcb_details" }
          else if pcb.layers.isSome &&
                  !(([1, 2, 4] : List Nat).contains (pcb.layers.getD 0)) then
            Except.error
              { message := "PCB layers must be 1, 2, or 4", field := "pcb_details.layers" }
          else Except.ok ()
        else Except.ok ()

/-! ## AI planner auto-correction (`aiPlanner.js`, `autoCorrectDesign`) -/

/-- One row of `MANUFACTURING_CONSTRAINTS`. -/
structure Constraints where
  min_wall_thickness : Rat
  max_dimension : Rat
  min_dimension : Rat
  recommended_wall_thickness : Rat
deriving DecidableEq

/-- `MANUFACTURING_CONSTRAINTS.mm`. -/
def constraints_mm : Constraints :=
  { min_wall_thickness := mkRat 3 2, max_dimension := 2000,
    min_dimension := 5, recommended_wall_thickness := mkRat 5 2 }

/-- `MANUFACTURING_CONSTRAINTS.inches`. -/
def constraints_inches : Constraints :=
  { min_wall_thickness := mkRat 6 100, max_dimension := 80,
    min_dimension := mkRat 2 10, recommended_wall_thickness := mkRat 1 10 }

/-- `MANUFACTURING_CONSTRAINTS[units] || MANUFACTURING_CONSTRAINTS.mm`. -/
def constraintsFor (units : String) : Constraints :=
  if units == "mm" then constraints_mm
  else if units == "inches" then constraints_inches
  else constraints_mm

/-- `autoCorrectDesign` (aiPlanner.js): fill in defaults for `units`,
`product_type`, `shape_type`, `material`; raise an undersized wall
thickness to the recommended value; coerce `pcb_required` to a boolean.
The corrections are only logged to the console by the source; no feedback
value is produced. -/
def autoCorrectDesign (design : DesignData) : DesignData :=
  let units := jsOrS design.units "mm"
  let constraints := constraintsFor units
  { design with
    units := some units
    product_type := some (jsOrS design.product_type "custom part")
    shape_type := some (jsOrS design.shape_type "box")
    material := some (jsOrS design.material "PLA")
    wall_thickness :=
      if truthyQ design.wall_thickness then
        if design.wall_thickness.getD 0 < constraints.min_wall_thickness then
          some constraints.recommended_wall_thickness
        else design.wall_thickness
      else some constraints.recommended_wall_thickness
    pcb_required := some (truthyB design.pcb_required) }

/-! ## Errors thrown by the embedded JavaScript -/

/-- Thrown JS errors, tagged by origin; `message` recovers the string the
orchestrator inspects with `error.message.includes(...)`. -/
inductive JsErr where
  | exitFailure (message : String) (code : Int) (stderr : String)
  | parseFailure (message : String)
  | startFailure (message : String)
  | resultFailure (message : String)
  | validation (e : ValidationError)
  | typeError (message : String)
  | referenceError (message : String)
  | errorMsg (message : String)
deriving DecidableEq

/-- The `.message` property of a thrown error. -/
def JsErr.message : JsErr → String
  | .exitFailure m _ _ => m
  | .parseFailure m => m
  | .startFailure m => m
  | .resultFailure m => m
  | .validation e => e.message
  | .typeError m => m
  | .referenceError m => m
  | .errorMsg m => m

/-! ## Compatibility checker (`database.js`, `checkEngineCompatibility`) -/

/-- JS `xs.length` on a possibly-undefined array: accessing a property of
`undefined` throws a `TypeError`. -/
def jsLen {α : Type} (o : Option (List α)) : Except JsErr Nat :=
  match o with
  | none => Except.error (JsErr.typeError "Cannot read length of undefined")
  | some l => Except.ok l.length

/-- `checkEngineCompatibility`: advisory pre-flight warnings.  The two
tool-discovery results (`getFreeCADPython()`, `getKiCADPython()`) depend
on the host filesystem and are passed as parameters; `"python"` is the
generic fallback meaning the tool was not found.  Every array-length
access of the source sits behind the same truthiness short-circuit here,
which is why the function never reaches an error. -/
def checkEngineCompatibility (freecadPython kicadPython : String) (d : DesignData) :
    Except JsErr (List String) := do
  let freecadIssues : List String :=
    if freecadPython == "python" then
      ["FreeCAD not found - using fallback Python (may have limited CAD features)"]
    else []
  let pcbIssues ←
    if truthyB d.pcb_required then do
      let kicadIssues : List String :=
        if kicadPython == "python" then
          ["KiCad not found - PCB generation will be skipped"]
        else []
      let noComponents ←
        if !d.pcb_details.isSome then pure true
        else if !(d.pcb_details.getD {}).components.isSome then pure true
        else do
          let n ← jsLen (d.pcb_details.getD {}).components
          pure (n == 0)
      pure (kicadIssues ++
        (if noComponents then
          ["PCB required but no components specified - will generate basic board layout"]
         else []))
    else pure ([] : List String)
  let cutoutIssues ←
    if d.cutouts.isSome then do
      let n ← jsLen d.cutouts
      if n > 20 then
        pure ["High cutout count (" ++ toString n ++ ") - CAD generation may be slow"]
      else pure ([] : List String)
    else pure ([] : List String)
  let maxDim := max (max (jsOrQ d.length 0) (jsOrQ d.width 0)) (jsOrQ d.height 0)
  let minDim := min (min (jsOrQ d.length 0) (jsOrQ d.width 0)) (jsOrQ d.height 0)
  let dimIssues : List String :=
    if d.units == some "mm" then
      (if maxDim > 400 then
        ["Large dimensions (max: " ++ jsNum maxDim ++ "mm) - may exceed standard 3D printer build volume"]
       else []) ++
      (if minDim < 10 && minDim > 0 then
        ["Very small dimensions (min: " ++ jsNum minDim ++ "mm) - may be difficult to manufacture"]
       else [])
    else []
  pure (freecadIssues ++ pcbIssues ++ cutoutIssues ++ dimIssues)

/-! ## Process runner: worker behaviour and per-worker runners -/

/-- The parsed form of the single JSON document a worker may write to its
output stream; the field set is the union of fields any worker kind is
read for.  Absent JSON fields are `none`. -/
structure OutDoc where
  success : Option Bool := none
  error : Option String := none
  files : Option (List String) := none
  feedback : Option (List String) := none
  triangle_count : Option Nat := none
  file_size : Option Nat := none
  component_count : Option Nat := none
  layers : Option Nat := none
  component_file : Option String := none
  engine : Option String := none
  design_language : Option Bool := none
  component_models : Option (List String) := none
deriving DecidableEq

/-- A worker's output stream as seen after `JSON.parse`: either it parses
to a document or it does not. -/
inductive StdoutDoc where
  | unparsable (raw : String)
  | parsed (docv : OutDoc)
deriving DecidableEq

/-- The complete observable behaviour of one spawned worker process: it
either can never be started (the `error` event), terminates with an exit
code having produced the two streams (the `close` event), or never
terminates at all. -/
inductive WorkerBehavior where
  | hangs
  | spawnFailure (msg : String)
  | exits (code : Int) (stdout : StdoutDoc) (stderr : String)
deriving DecidableEq

/-- Exit code of a behaviour, when the worker terminated. -/
def WorkerBehavior.exitCode : WorkerBehavior → Option Int
  | .exits c _ _ => some c
  | _ => none

/-- The parsed `files` field of a behaviour's output document, when the
worker terminated and its output parsed. -/
def WorkerBehavior.outFiles : WorkerBehavior → Option (List String)
  | .exits _ (StdoutDoc.parsed dv) _ => dv.files
  | _ => none

/-! ### Feedback extractor (stderr scraping in `runCADGenerator`) -/

/-- Recommended print settings scraped from the diagnostic stream. -/
structure PrintSettings where
  entries : List (String × String) := []
  isManifold : Option Bool := none
  needsSupports : Option Bool := none
deriving DecidableEq

/-- JS object assignment `obj[k] = v` on an association list. -/
def setKV (k v : String) : List (String × String) → List (String × String)
  | [] => [(k, v)]
  | (k0, v0) :: rest => if k0 == k then (k, v) :: rest else (k0, v0) :: setKV k v rest

/-- State of the line scan over the CAD generator's stderr. -/
structure CadScanState where
  inPrintSettings : Bool := false
  feedback : List String := []
  printSettings : PrintSettings := {}
deriving DecidableEq

/-- One iteration of the `lines.forEach` body in `runCADGenerator`:
marker lines become feedback, a marker-delimited block becomes key/value
entries, and two substring heuristics set boolean flags. -/
def cadScanLine (st : CadScanState) (line : String) : CadScanState :=
  let st1 :=
    if strContains line "Warning:" || strContains line "Note:" || strContains line "⚠" then
      { st with feedback := st.feedback ++ [strTrim line] }
    else st
  let st2 :=
    if strContains line "=== RECOMMENDED PRINT SETTINGS ===" then
      { st1 with inPrintSettings := true }
    else if strContains line "=== END ANALYSIS ===" then
      { st1 with inPrintSettings := false }
    else if st1.inPrintSettings && strContains line ":" then
      match (strSplitColon line).map strTrim with
      | [] => st1
      | [_] => st1
      | k :: v :: _ =>
        if !(k == "") && !(v == "") then
          { st1 with printSettings :=
              { st1.printSettings with entries := setKV k v st1.printSettings.entries } }
        else st1
    else st1
  let st3 :=
    if strContains line "✓" || strContains line "Geometry is manifold" then
      { st2 with printSettings := { st2.printSettings with isManifold := some true } }
    else st2
  if strContains line "overhangs detected" then
    { st3 with printSettings :=
        { st3.printSettings with needsSupports := some (!(strContains line "No significant")) } }
  else st3

/-- The whole stderr scan of `runCADGenerator` (`if (stderr) { ... }`). -/
def cadScan (stderr : String) : List String × PrintSettings :=
  if stderr == "" then ([], {})
  else
    let fin := (strLines stderr).foldl cadScanLine {}
    (fin.feedback, fin.printSettings)

/-! ### Per-worker runners -/

/-- Resolved value of a successful `runCADGenerator` invocation. -/
structure CadResult where
  files : List String
  feedback : List String
  printSettings : PrintSettings
  triangleCount : Option Nat := none
  fileSize : Option Nat := none
deriving DecidableEq

/-- Error message of a non-zero CAD generator exit: the accumulated
diagnostic text is attached verbatim. -/
def cadExitMsg (code : Int) (stderr : String) : String :=
  "CAD generator failed with code " ++ toString code ++ ": " ++ stderr

/-- `runCADGenerator` (database.js): non-zero exit rejects with the
diagnostic text; a zero exit requires the output stream to parse, and a
parsed document without a `files` array still rejects (the `.join` access
throws inside the same `try`); otherwise the parsed document, the scraped
feedback and print settings resolve.  `buildId` and the design are only
serialized onto the worker's stdin, so the outcome depends solely on the
worker's behaviour. -/
def runCADGenerator (b : WorkerBehavior) : Option (Except JsErr CadResult) :=
  match b with
  | WorkerBehavior.hangs => none
  | WorkerBehavior.spawnFailure m =>
    some (Except.error (JsErr.startFailure ("Failed to start CAD generator: " ++ m)))
  | WorkerBehavior.exits code out err =>
    if code != 0 then
      some (Except.error (JsErr.exitFailure (cadExitMsg code err) code err))
    else
      match out with
      | StdoutDoc.unparsable raw =>
        some (Except.error (JsErr.parseFailure ("Failed to parse CAD generator output: " ++ raw)))
      | StdoutDoc.parsed dv =>
        match dv.files with
        | none =>
          some (Except.error (JsErr.parseFailure
            "Failed to parse CAD generator output: TypeError: result.files is undefined"))
        | some fs =>
          let scan := cadScan err
          some (Except.ok
            { files := fs, feedback := scan.1, printSettings := scan.2,
              triangleCount := dv.triangle_count, fileSize := dv.file_size })

/-- Resolved value of a successful `runPCBGenerator` invocation. -/
structure PcbResult where
  files : List String
  feedback : List String
  componentCount : Option Nat := none
  layerCount : Option Nat := none
  component_file : Option String := none
deriving DecidableEq

/-- Stderr scan of `runPCBGenerator` (only warning and note lines). -/
def pcbScan (stderr : String) : List String :=
  if stderr == "" then []
  else (strLines stderr).foldl
    (fun acc line =>
      if strContains line "Warning:" || strContains line "Note:" then acc ++ [strTrim line]
      else acc) []

/-- `runPCBGenerator` (database.js): same exit-code and parse contract as
the CAD runner, with the PCB-specific result fields. -/
def runPCBGenerator (b : WorkerBehavior) : Option (Except JsErr PcbResult) :=
  match b with
  | WorkerBehavior.hangs => none
  | WorkerBehavior.spawnFailure m =>
    some (Except.error (JsErr.startFailure ("Failed to start PCB generator: " ++ m)))
  | WorkerBehavior.exits code out err =>
    if code != 0 then
      some (Except.error (JsErr.exitFailure
        ("PCB generator failed with code " ++ toString code ++ ": " ++ err) code err))
    else
      match out with
      | StdoutDoc.unparsable raw =>
        some (Except.error (JsErr.parseFailure ("Failed to parse PCB generator output: " ++ raw)))
      | StdoutDoc.parsed dv =>
        match dv.files with
        | none =>
          some (Except.error (JsErr.parseFailure
            "Failed to parse PCB generator output: TypeError: result.files is undefined"))
        | some fs =>
          some (Except.ok
            { files := fs, feedback := pcbScan err,
              componentCount := dv.component_count, layerCount := dv.layers,
              component_file := dv.component_file })

/-- Resolved value of a successful `runGeometryInterpreter` invocation. -/
structure InterpResult where
  files : List String
  feedback : List String
  engine : Option String := none
  design_language : Option Bool := none
deriving DecidableEq

/-- `runGeometryInterpreter` (database.js).  The source registers no
`error` handler on the spawned process, so a spawn failure never settles
the promise; that case is modelled like a hang (`none`). -/
def runGeometryInterpreter (b : WorkerBehavior) : Option (Except JsErr InterpResult) :=
  match b with
  | WorkerBehavior.hangs => none
  | WorkerBehavior.spawnFailure _ => none
  | WorkerBehavior.exits code out err =>
    if code != 0 then
      some (Except.error (JsErr.exitFailure ("Geometry Interpreter failed: " ++ err) code err))
    else
      match out with
      | StdoutDoc.unparsable raw =>
        some (Except.error (JsErr.parseFailure
          ("Geometry Interpreter output parsing failed: " ++ raw)))
      | StdoutDoc.parsed dv =>
        if !truthyB dv.success then
          some (Except.error (JsErr.parseFailure
            ("Geometry Interpreter output parsing failed: " ++ jsOrS dv.error "Unknown interpreter error")))
        else
          match dv.files with
          | none =>
            some (Except.error (JsErr.parseFailure
              "Geometry Interpreter output parsing failed: TypeError: result.files is undefined"))
          | some fs =>
            some (Except.ok
              { files := fs, feedback := dv.feedback.getD [],
                engine := dv.engine, design_language := dv.design_language })

/-- Resolved value of a successful `runComponentModelGenerator`
invocation; the orchestrator only reads `component_models`. -/
structure ComponentResult where
  component_models : Option (List String) := none
deriving DecidableEq

/-- `runComponentModelGenerator` (database.js): non-zero exit rejects; a
parsed document with a falsy `success` rejects with the document's error
text; otherwise the document resolves. -/
def runComponentModelGenerator (b : WorkerBehavior) : Option (Except JsErr ComponentResult) :=
  match b with
  | WorkerBehavior.hangs => none
  | WorkerBehavior.spawnFailure m =>
    some (Except.error (JsErr.startFailure ("Failed to start component model generator: " ++ m)))
  | WorkerBehavior.exits code out err =>
    if code != 0 then
      some (Except.error (JsErr.exitFailure
        ("Component model generator exited with code " ++ toString code ++ ": " ++ err) code err))
    else
      match out with
      | StdoutDoc.unparsable raw =>
        some (Except.error (JsErr.parseFailure
          ("Failed to parse component model generator output: " ++ raw)))
      | StdoutDoc.parsed dv =>
        if truthyB dv.success then
          some (Except.ok { component_models := dv.component_models })
        else
          some (Except.error (JsErr.resultFailure (jsOrS dv.error "Component model generation failed")))

/-! ## Assembly generation (`runAssemblyCADGenerator`) -/

/-- JS template interpolation of a possibly-absent integer. -/
def jsIntStr : Option Int → String
  | none => "undefined"
  | some i => toString i

/-- The per-part build identifier
(`buildId_part{part_number}_{part_name with whitespace replaced}`). -/
def mkPartId (buildId : String) (p : Part) : String :=
  buildId ++ "_part" ++ jsIntStr p.part_number ++ "_" ++ replWs (p.part_name.getD "")

/-- One generation job as submitted to the CAD worker for one part. -/
structure BuildJob where
  dims : List (String × Rat)
  units : String
  wall_thickness : Rat
  material : String
  product_type : String
  shape_type : String
  features : List String
  cutouts : List Cutout
deriving DecidableEq

/-- Keys whose explicit assignments in `partDesignData` override a
same-named key spread from `part.dimensions`. -/
def partJobKeys : List String :=
  ["units", "wall_thickness", "material", "product_type", "shape_type",
   "features", "cutouts", "mounting_holes"]

/-- The `partDesignData` object built for one part: dimensions spread
from the part, shared defaults inherited from the parent document with
part-level overrides for wall thickness, material and shape type (the
unit system has no part-level override in the source). -/
def mkPartJob (d : DesignData) (p : Part) : BuildJob :=
  { dims := p.dimensions.filter (fun kv => !(partJobKeys.contains kv.fst))
    units := jsOrS d.units "mm"
    wall_thickness := jsOrQ p.wall_thickness (jsOrQ d.wall_thickness 2)
    material := jsOrS p.material (jsOrS d.material "PLA")
    product_type := p.part_name.getD ""
    shape_type := jsOrS p.shape_type (jsOrS d.shape_type "box")
    features := p.features.getD []
    cutouts := p.cutouts.getD [] }

/-- One per-part entry of an assembly's file manifest. -/
structure PartManifest where
  partName : String
  partNumber : Option Int
  quantity : Nat
  files : List String
  material : String
deriving DecidableEq

/-- The `assemblyInfo` summary of an assembly result. -/
structure AssemblyInfo where
  totalParts : Nat
  hardware : List String
  assemblySteps : List String
  toolsRequired : List String
  assemblyTime : Rat
  totalPrintTime : Rat
deriving DecidableEq

/-- Value returned by `runAssemblyCADGenerator`. -/
structure AssemblyResult where
  files : List PartManifest
  feedback : List String
  printSettings : List (String × String)
  triangleCount : Nat
  isAssembly : Bool
  assemblyInfo : AssemblyInfo
deriving DecidableEq

/-- The manifest entry pushed for one successfully generated part. -/
def mkPartManifest (d : DesignData) (p : Part) (pr : CadResult) : PartManifest :=
  { partName := p.part_name.getD ""
    partNumber := p.part_number
    quantity := jsOrN p.quantity 1
    files := pr.files
    material := jsOrS p.material (jsOrS d.material "PLA") }

/-- Accumulator of the sequential per-part loop, including the trace of
emitted jobs. -/
structure AsmAccum where
  jobs : List (String × BuildJob)
  manifests : List PartManifest
  feedback : List String
  triangles : Nat
deriving DecidableEq

/-- The sequential per-part loop of `runAssemblyCADGenerator`: part `i`
is submitted to worker behaviour `cadB i`.  A part without a `part_name`
throws a `TypeError` outside the per-part `try` (the whole invocation
rejects); a failing worker is caught inside the `try` and becomes a
feedback warning while the loop continues; a hanging worker hangs the
loop. -/
def assemblyLoop (cadB : Nat → WorkerBehavior) (buildId : String) (d : DesignData) :
    Nat → List Part → Option (Except JsErr AsmAccum)
  | _, [] => some (Except.ok { jobs := [], manifests := [], feedback := [], triangles := 0 })
  | i, p :: rest =>
    match p.part_name with
    | none => some (Except.error (JsErr.typeError "Cannot read replace of undefined"))
    | some _ =>
      let entry := (mkPartId buildId p, mkPartJob d p)
      match runCADGenerator (cadB i) with
      | none => none
      | some res =>
        match assemblyLoop cadB buildId d (i + 1) rest with
        | none => none
        | some (Except.error e) => some (Except.error e)
        | some (Except.ok acc) =>
          match res with
          | Except.ok pr =>
            some (Except.ok
              { jobs := entry :: acc.jobs
                manifests := mkPartManifest d p pr :: acc.manifests
                feedback := pr.feedback ++ acc.feedback
                triangles := pr.triangleCount.getD 0 + acc.triangles })
          | Except.error _ =>
            some (Except.ok
              { jobs := entry :: acc.jobs
                manifests := acc.manifests
                feedback := ("Warning: Part " ++ p.part_name.getD "" ++ " generation failed")
                            :: acc.feedback
                triangles := acc.triangles })

/-- `runAssemblyCADGenerator` (database.js): run the per-part loop over
`designData.assembly.parts` and assemble the multi-part result. -/
def runAssemblyCADGenerator (cadB : Nat → WorkerBehavior) (buildId : String) (d : DesignData) :
    Option (Except JsErr AssemblyResult) :=
  match d.assembly with
  | none => some (Except.error (JsErr.typeError "Cannot read parts of undefined"))
  | some a =>
    match a.parts with
    | none => some (Except.error (JsErr.typeError "Cannot read length of undefined"))
    | some parts =>
      match assemblyLoop cadB buildId d 0 parts with
      | none => none
      | some (Except.error e) => some (Except.error e)
      | some (Except.ok acc) =>
        some (Except.ok
          { files := acc.manifests
            feedback := acc.feedback
            printSettings := a.print_settings.getD []
            triangleCount := acc.triangles
            isAssembly := true
            assemblyInfo :=
              { totalParts := parts.length
                hardware := a.hardware.getD []
                assemblySteps := a.assembly_steps.getD []
                toolsRequired := a.tools_required.getD []
                assemblyTime := jsOrQ a.assembly_time_minutes 0
                totalPrintTime := jsOrQ a.total_print_time_hours 0 } })

/-- The trace of generation jobs emitted by `runAssemblyCADGenerator`,
projected from the same loop. -/
def assemblyJobs (cadB : Nat → WorkerBehavior) (buildId : String) (d : DesignData) :
    Option (Except JsErr (List (String × BuildJob))) :=
  match d.assembly with
  | none => some (Except.error (JsErr.typeError "Cannot read parts of undefined"))
  | some a =>
    match a.parts with
    | none => some (Except.error (JsErr.typeError "Cannot read length of undefined"))
    | some parts =>
      match assemblyLoop cadB buildId d 0 parts with
      | none => none
      | some (Except.error e) => some (Except.error e)
      | some (Except.ok acc) => some (Except.ok acc.jobs)

/-! ## Build orchestrator (`buildProduct`) -/

/-- `AI_MODEL_NAME` with the environment variable unset (its source
default). -/
def AI_MODEL_NAME : String := "GPT-5.1-Codex"

/-- The three shapes `cadResult` can take in `buildProduct`. -/
inductive CadOutcome where
  | singleR (r : CadResult)
  | interpR (r : InterpResult)
  | assemblyR (r : AssemblyResult)
deriving DecidableEq

/-- Truthiness of `cadResult.isAssembly` (the field is absent on the
single-part and interpreter results). -/
def CadOutcome.isAssemblyB : CadOutcome → Bool
  | CadOutcome.assemblyR r => r.isAssembly
  | _ => false

/-- `cadResult.feedback || []`. -/
def CadOutcome.feedback : CadOutcome → List String
  | CadOutcome.singleR r => r.feedback
  | CadOutcome.interpR r => r.feedback
  | CadOutcome.assemblyR r => r.feedback

/-- The value stored under `files.cad` in the build result: the full
assembly structure for assemblies, otherwise just the files array. -/
inductive CadFilesVal where
  | single (files : List String)
  | assemblyFull (r : AssemblyResult)
  | manifestList (l : List PartManifest)
deriving DecidableEq

/-- `cadResult.isAssembly ? cadResult : cadResult.files`.  The
`manifestList` branch is what the ternary would produce for an assembly
result whose `isAssembly` were falsy; `runAssemblyCADGenerator` always
sets it, so that branch never arises. -/
def CadOutcome.cadFiles : CadOutcome → CadFilesVal
  | CadOutcome.singleR r => CadFilesVal.single r.files
  | CadOutcome.interpR r => CadFilesVal.single r.files
  | CadOutcome.assemblyR r =>
    if r.isAssembly then CadFilesVal.assemblyFull r else CadFilesVal.manifestList r.files

/-- The orchestrator's build result. -/
structure BuildResult where
  buildId : String
  designData : DesignData
  reasoning : Option String
  files_cad : CadFilesVal
  files_pcb : Option (List String)
  component_models : Option (List String)
  engineFeedback : List String
  compatibilityChecks : List String
  aiModel : String
deriving DecidableEq

/-- Assemble the record returned by `buildProduct`. -/
def mkBuildResult (buildId : String) (d : DesignData) (cadFiles : CadFilesVal)
    (cadFeedback pcbFeedback : List String) (compat : List String)
    (pcbFiles : Option (List String)) (componentModels : Option ComponentResult) :
    BuildResult :=
  { buildId := buildId
    designData := d
    reasoning := none
    files_cad := cadFiles
    files_pcb := pcbFiles
    component_models :=
      match componentModels with
      | none => none
      | some cr =>
        match cr.component_models with
        | none => none
        | some l => some l
    engineFeedback := cadFeedback ++ pcbFeedback
    compatibilityChecks := compat
    aiModel := AI_MODEL_NAME }

/-- The rewrapping in `buildProduct`'s catch block: the error message
decides which operator-facing wrapper is produced. -/
def rewrapBuildError (e : JsErr) : JsErr :=
  let m := e.message
  if strContains m "FreeCAD" then
    JsErr.errorMsg ("CAD Generation Error: " ++ m ++
      "\n\nMake sure FreeCAD is installed correctly. Visit https://www.freecad.org/downloads.php")
  else if strContains m "AI planning failed" then
    JsErr.errorMsg ("AI Planning Error: " ++ m ++
      "\n\nPlease check your ANTHROPIC_API_KEY in .env file.")
  else if strContains m "Validation failed" then
    JsErr.errorMsg ("Design Validation Error: " ++ m ++
      "\n\nPlease provide more specific dimensions and requirements.")
  else e

/-- The routing predicate for the Geometry Pipeline Interpreter
(`use_design_language` flag, or a bicycle-like product type). -/
def useInterpreterB (d : DesignData) : Bool :=
  truthyB d.use_design_language ||
  (match d.product_type with
   | none => false
   | some pt => strContains (jsToLower pt) "bicycle" || strContains (jsToLower pt) "bike")

/-- The routing predicate for the multi-part assembly branch
(`designData.assembly && designData.assembly.is_assembly &&
designData.assembly.parts`). -/
def assemblyBranchB (d : DesignData) : Bool :=
  match d.assembly with
  | none => false
  | some a => a.is_assembly && a.parts.isSome

/-- The degradation marker checked by `buildProduct`'s PCB catch. -/
def kicadMarker : String := "KiCad Python API is not installed"

/-- `buildProduct` (database.js), entered after the external planning
call has produced a parsed design (`rawDesign`); the source immediately
applies `autoCorrectDesign` to that value inside
`generateDesignFromPrompt`.  The worker behaviours of the four possible
child processes are explicit parameters; the two tool-discovery strings
parameterize the compatibility check.  A `none` result models a build
that never settles because some worker never terminated. -/
def buildProduct (freecadPython kicadPython buildId : String) (rawDesign : DesignData)
    (interpB : WorkerBehavior) (cadB : Nat → WorkerBehavior) (pcbB compB : WorkerBehavior) :
    Option (Except JsErr BuildResult) :=
  let designData := autoCorrectDesign rawDesign
  match validateDesignData designData with
  | Except.error ve => some (Except.error (rewrapBuildError (JsErr.validation ve)))
  | Except.ok _ =>
    match checkEngineCompatibility freecadPython kicadPython designData with
    | Except.error e => some (Except.error (rewrapBuildError e))
    | Except.ok compatibilityIssues =>
      let cadOut : Option (Except JsErr CadOutcome) :=
        if useInterpreterB designData then
          match runGeometryInterpreter interpB with
          | none => none
          | some (Except.error e) => some (Except.error e)
          | some (Except.ok r) => some (Except.ok (CadOutcome.interpR r))
        else if assemblyBranchB designData then
          match runAssemblyCADGenerator cadB buildId designData with
          | none => none
          | some (Except.error e) => some (Except.error e)
          | some (Except.ok r) => some (Except.ok (CadOutcome.assemblyR r))
        else
          match runCADGenerator (cadB 0) with
          | none => none
          | some (Except.error e) => some (Except.error e)
          | some (Except.ok r) => some (Except.ok (CadOutcome.singleR r))
      match cadOut with
      | none => none
      | some (Except.error e) => some (Except.error (rewrapBuildError e))
      | some (Except.ok co) =>
        let cadFiles := co.cadFiles
        let cadFeedback := co.feedback
        if truthyB designData.pcb_required then
          match runPCBGenerator pcbB with
          | none => none
          | some (Except.error e) =>
            if strContains e.message kicadMarker then
              some (Except.ok (mkBuildResult buildId designData cadFiles
                cadFeedback [] compatibilityIssues none none))
            else some (Except.error (rewrapBuildError e))
          | some (Except.ok pcbResult) =>
            let pcbFiles := some pcbResult.files
            let pcbFeedback := pcbResult.feedback
            if truthyS pcbResult.component_file then
              match runComponentModelGenerator compB with
              | none => none
              | some (Except.error _) =>
                some (Except.ok (mkBuildResult buildId designData cadFiles
                  cadFeedback pcbFeedback compatibilityIssues pcbFiles
                  (some { component_models := some [] })))
              | some (Except.ok cr) =>
                some (Except.ok (mkBuildResult buildId designData cadFiles
                  cadFeedback pcbFeedback compatibilityIssues pcbFiles (some cr)))
            else
              some (Except.ok (mkBuildResult buildId designData cadFiles
                cadFeedback pcbFeedback compatibilityIssues pcbFiles none))
        else
          some (Except.ok (mkBuildResult buildId designData cadFiles
            cadFeedback [] compatibilityIssues none none))

/-! ## `buildProductFromDesign` -/

/-- Identifiers in scope inside `buildProductFromDesign`'s body when its
return value is constructed: the parameter, the function's own locals,
and the orchestrator module's top-level bindings.  `pcbFiles` is a local
of `buildProduct` only and is not in this list. -/
def buildProductFromDesignScope : List String :=
  ["designData", "buildId", "reasoningMessage", "cadFiles", "error",
   "spawn", "path", "fs", "uuidv4", "aiPlanner", "validator", "AI_MODEL_NAME",
   "getFreeCADPython", "checkEngineCompatibility", "getKiCADPython",
   "buildProduct", "runCADGenerator", "runAssemblyCADGenerator",
   "runGeometryInterpreter", "runPCBGenerator", "runComponentModelGenerator",
   "buildProductFromDesign", "require", "module", "process", "console"]

/-- JS identifier resolution: an identifier not bound in any enclosing
scope throws a `ReferenceError` when evaluated. -/
def resolveIdent (scope : List String) (id : String) : Except JsErr Unit :=
  if scope.contains id then Except.ok ()
  else Except.error (JsErr.referenceError (id ++ " is not defined"))

/-- The record `buildProductFromDesign` would return. -/
structure BuildFromDesignResult where
  buildId : String
  design : DesignData
  reasoning : String
  files_cad : CadResult
  files_pcb : Option (List String)
  aiModel : String
deriving DecidableEq

/-- `buildProductFromDesign` (database.js): validate the given design,
run the CAD generator, then construct the return value — whose `pcb:`
property evaluates the identifier `pcbFiles`, which is not bound in this
function's scope.  The success branch after that resolution is therefore
unreachable (its `files_pcb` placeholder is never produced). -/
def buildProductFromDesign (buildId : String) (designData : DesignData)
    (cadB : WorkerBehavior) : Option (Except JsErr BuildFromDesignResult) :=
  match validateDesignData designData with
  | Except.error ve => some (Except.error (JsErr.validation ve))
  | Except.ok _ =>
    match runCADGenerator cadB with
    | none => none
    | some (Except.error e) => some (Except.error e)
    | some (Except.ok cadFiles) =>
      match resolveIdent buildProductFromDesignScope "pcbFiles" with
      | Except.error e => some (Except.error e)
      | Except.ok _ =>
        some (Except.ok
          { buildId := buildId
            design := designData
            reasoning := "Build generated from provided design data (AI planning skipped)."
            files_cad := cadFiles
            files_pcb := none
            aiModel := AI_MODEL_NAME })

/-! ## Projections used to state closed counterexamples and witnesses -/

/-- Did the pipeline settle with a success value? -/
def buildOk {α : Type} : Option (Except JsErr α) → Bool
  | some (Except.ok _) => true
  | _ => false

/-- The message of the error the pipeline settled with, if any. -/
def buildErrMessage {α : Type} : Option (Except JsErr α) → Option String
  | some (Except.error e) => some e.message
  | _ => none

/-- Wall thickness recorded in a successful build result's design. -/
def resultWall : Option (Except JsErr BuildResult) → Option Rat
  | some (Except.ok r) => r.designData.wall_thickness
  | _ => none

/-- Engine feedback list of a successful build result. -/
def resultEngineFeedback : Option (Except JsErr BuildResult) → Option (List String)
  | some (Except.ok r) => some r.engineFeedback
  | _ => none

/-- PCB files of a successful build result. -/
def resultPcbFiles : Option (Except JsErr BuildResult) → Option (Option (List String))
  | some (Except.ok r) => some r.files_pcb
  | _ => none

/-- CAD files value of a successful build result. -/
def resultCadFiles : Option (Except JsErr BuildResult) → Option CadFilesVal
  | some (Except.ok r) => some r.files_cad
  | _ => none

/-- Part numbers, in manifest order, of a settled assembly result. -/
def asmPartNumbers : Option (Except JsErr AssemblyResult) → Option (List (Option Int))
  | some (Except.ok r) => some (r.files.map (fun m => m.partNumber))
  | _ => none

/-- Feedback list of a settled assembly result. -/
def asmFeedback : Option (Except JsErr AssemblyResult) → Option (List String)
  | some (Except.ok r) => some r.feedback
  | _ => none

/-- Job identifiers of a settled job trace. -/
def jobsIds : Option (Except JsErr (List (String × BuildJob))) → Option (List String)
  | some (Except.ok l) => some (l.map Prod.fst)
  | _ => none

/-- Compatibility warnings of a successful build result. -/
def resultCompat : Option (Except JsErr BuildResult) → Option (List String)
  | some (Except.ok r) => some r.compatibilityChecks
  | _ => none

/-- Part names of the manifest entries of a successful assembly build. -/
def resultCadPartNames : Option (Except JsErr BuildResult) → Option (List String)
  | some (Except.ok r) =>
    match r.files_cad with
    | CadFilesVal.assemblyFull a => some (a.files.map (fun m => m.partName))
    | _ => none
  | _ => none

/-- Field attribution of a validation outcome. -/
def valErrField : Except ValidationError Unit → Option String
  | Except.error e => some e.field
  | _ => none

/-- Whether a validation error's message mentions the given substring. -/
def valErrMessageContains (sub : String) : Except ValidationError Unit → Option Bool
  | Except.error e => some (strContains e.message sub)
  | _ => none

deriving instance DecidableEq for Except

/-! ## Concrete fixtures (inputs the closed theorems evaluate on) -/

/-- A worker that exits 0 with a parsed document listing `fs` and an
empty diagnostic stream. -/
def wbOk (fs : List String) : WorkerBehavior :=
  WorkerBehavior.exits 0 (StdoutDoc.parsed { files := some fs }) ""

/-- A worker that exits 1 with unparsable output and diagnostic text. -/
def wbFail : WorkerBehavior :=
  WorkerBehavior.exits 1 (StdoutDoc.unparsable "") "boom"

/-- The `CadResult` a zero-exit worker with files `fs` and empty stderr
resolves to. -/
def cadResultOf (fs : List String) : CadResult :=
  { files := fs, feedback := [], printSettings := {},
    triangleCount := none, fileSize := none }

/-- Scenario A of the spec: a 50x40x30 mm box with a 1 mm wall. -/
def designA : DesignData :=
  { product_type := some "box", shape_type := some "box", units := some "mm",
    material := some "PLA", length := some 50, width := some 40, height := some 30,
    wall_thickness := some 1, pcb_required := some false }

/-- Scenario A run with a succeeding geometry worker. -/
def resA : Option (Except JsErr BuildResult) :=
  buildProduct "python3" "python3" "b" designA WorkerBehavior.hangs
    (fun _ => wbOk ["box.stl"]) WorkerBehavior.hangs WorkerBehavior.hangs

/-- A valid plain box design (no PCB). -/
def designB0 : DesignData :=
  { product_type := some "box", shape_type := some "box", units := some "mm",
    length := some 50, width := some 40, height := some 30, wall_thickness := some 2 }

/-- First part of a two-part assembly. -/
def partBase : Part :=
  { name := some "Base", part_name := some "Base", part_number := some 1,
    shape_type := some "box", length := some 100,
    dimensions := [("length", 100), ("width", 80), ("height", 30)] }

/-- Second part of a two-part assembly. -/
def partLid : Part :=
  { name := some "Lid", part_name := some "Lid", part_number := some 2,
    shape_type := some "box", length := some 104,
    dimensions := [("length", 104), ("width", 84), ("height", 10)] }

/-- The assembly block of the two-part design. -/
def asmBlk : AssemblyBlock :=
  { is_assembly := true, parts := some [partBase, partLid] }

/-- A valid two-part assembly design (Base, Lid). -/
def designAsm : DesignData :=
  { product_type := some "two part box", units := some "mm", shape_type := some "box",
    material := some "PLA", wall_thickness := some 2,
    is_assembly := some true, parts := some [partBase, partLid],
    assembly := some asmBlk, pcb_required := some false }

/-- Worker behaviours for the two-part assembly: the first part's worker
fails, the second succeeds. -/
def cadBAsm : Nat → WorkerBehavior := fun i =>
  if i == 0 then wbFail else wbOk ["lid.stl"]

/-- The two-part assembly build with the Base worker failing. -/
def resAsm : Option (Except JsErr BuildResult) :=
  buildProduct "python3" "python3" "b" designAsm WorkerBehavior.hangs cadBAsm
    WorkerBehavior.hangs WorkerBehavior.hangs

/-- A box whose length and width are both above the 2000 mm bound. -/
def designC3 : DesignData :=
  { product_type := some "box", shape_type := some "box", units := some "mm",
    length := some 5000, width := some 5000, height := some 30 }

/-- A box missing two required dimensions (width and height). -/
def designMissing : DesignData :=
  { product_type := some "box", shape_type := some "box", units := some "mm",
    length := some 50 }

/-- A single part declared with `part_number` 2 at position 0. -/
def partSolo : Part :=
  { name := some "Solo", part_name := some "Solo", part_number := some 2,
    shape_type := some "box", length := some 10, dimensions := [("length", 10)] }

/-- The assembly block containing only `partSolo`. -/
def asmBlkSolo : AssemblyBlock :=
  { is_assembly := true, parts := some [partSolo] }

/-- A one-part assembly whose sole part carries `part_number` 2. -/
def designC4 : DesignData :=
  { units := some "mm", material := some "PLA", assembly := some asmBlkSolo }

/-- A succeeding worker for every part of `designC4`. -/
def cb4 : Nat → WorkerBehavior := fun _ => wbOk ["solo.stl"]

/-- A valid PCB-requiring enclosure design. -/
def designC6 : DesignData :=
  { product_type := some "enclosure", shape_type := some "box", units := some "mm",
    length := some 100, width := some 80, height := some 40, wall_thickness := some 2,
    pcb_required := some true,
    pcb_details := some { width := some 80, height := some 60, components := some ["R1"] } }

/-- A PCB worker failing because the KiCad Python API is missing. -/
def pcbFailKicad : WorkerBehavior :=
  WorkerBehavior.exits 1 (StdoutDoc.unparsable "")
    "Error: KiCad Python API is not installed"

/-- A PCB worker failing for an unrelated reason. -/
def pcbFailOther : WorkerBehavior :=
  WorkerBehavior.exits 1 (StdoutDoc.unparsable "") "Some other crash"

/-- The PCB-requiring build with the KiCad-unavailable failure. -/
def resC6 : Option (Except JsErr BuildResult) :=
  buildProduct "python3" "python3" "b" designC6 WorkerBehavior.hangs
    (fun _ => wbOk ["enc.stl"]) pcbFailKicad WorkerBehavior.hangs

/-! ## Helper lemmas (shared across the claim theorems) -/

/-- A list is a prefix of itself. -/
theorem isPrefixL_self : ∀ l : List Char, isPrefixL l l = true := by
  intro l
  induction l with
  | nil => rfl
  | cons c rest ih => simp [isPrefixL, ih]

/-- A prefix of a list is a prefix of any right extension of it. -/
theorem isPrefixL_append_right : ∀ (sub l ys : List Char),
    isPrefixL sub l = true → isPrefixL sub (l ++ ys) = true := by
  intro sub
  induction sub with
  | nil => intro l ys _; rfl
  | cons c rest ih =>
    intro l ys h
    cases l with
    | nil => simp [isPrefixL] at h
    | cons b bs =>
      simp [isPrefixL] at h ⊢
      exact ⟨h.1, ih bs ys h.2⟩

/-- A prefix occurrence is an occurrence. -/
theorem containsL_of_isPrefixL {sub l : List Char} (h : isPrefixL sub l = true) :
    containsL sub l = true := by
  cases l with
  | nil => simpa [containsL] using h
  | cons c rest => simp [containsL, h]

/-- Occurrence is preserved under right extension. -/
theorem containsL_append_left {sub xs : List Char} (ys : List Char)
    (h : containsL sub xs = true) : containsL sub (xs ++ ys) = true := by
  induction xs with
  | nil =>
    simp [containsL] at h
    exact containsL_of_isPrefixL (isPrefixL_append_right sub [] ys h)
  | cons c rest ih =>
    simp [containsL] at h
    cases h with
    | inl h =>
      simpa [containsL] using
        Or.inl (isPrefixL_append_right sub (c :: rest) ys h)
    | inr h => simp [containsL, ih h]

/-- Occurrence is preserved under left extension. -/
theorem containsL_append_right {sub ys : List Char} (xs : List Char)
    (h : containsL sub ys = true) : containsL sub (xs ++ ys) = true := by
  induction xs with
  | nil => simpa using h
  | cons c rest ih => simp [containsL, ih]

/-- Every list occurs in itself. -/
theorem containsL_self : ∀ l : List Char, containsL l l = true := by
  intro l
  exact containsL_of_isPrefixL (isPrefixL_self l)

/-- `strContains` is preserved when text is appended on the right. -/
theorem strContains_append_left (a b sub : String) (h : strContains a sub = true) :
    strContains (a ++ b) sub = true := by
  unfold strContains at h ⊢
  rw [String.data_append]
  exact containsL_append_left b.data h

/-- `strContains` is preserved when text is prepended on the left. -/
theorem strContains_append_right (a b sub : String) (h : strContains b sub = true) :
    strContains (a ++ b) sub = true := by
  unfold strContains at h ⊢
  rw [String.data_append]
  exact containsL_append_right a.data h

/-- Every string contains itself. -/
theorem strContains_self (s : String) : strContains s s = true :=
  containsL_self s.data

/-- A joined list of strings contains each of its members. -/
theorem strContains_joinSep (sep : String) :
    ∀ (msgs : List String) (m : String), m ∈ msgs →
      strContains (joinSep sep msgs) m = true := by
  intro msgs
  induction msgs with
  | nil => intro m h; cases h
  | cons x rest ih =>
    intro m hm
    cases rest with
    | nil =>
      have : m = x := by
        cases hm with
        | head => rfl
        | tail _ h => cases h
      rw [this]
      exact strContains_self x
    | cons y rs =>
      cases hm with
      | head =>
        show strContains (x ++ sep ++ joinSep sep (y :: rs)) x = true
        exact strContains_append_left _ _ _
          (strContains_append_left _ _ _ (strContains_self x))
      | tail _ h =>
        show strContains (x ++ sep ++ joinSep sep (y :: rs)) m = true
        exact strContains_append_right _ _ _ (ih m h)

/-- Every array-length access in the compatibility checker sits behind
the source's truthiness short-circuit, so no input reaches the
`TypeError` branch. -/
theorem compat_never_throws (fc kc : String) (d : DesignData) :
    ∃ l, checkEngineCompatibility fc kc d = Except.ok l := by
  unfold checkEngineCompatibility jsLen
  cases hpr : truthyB d.pcb_required with
  | false =>
    cases hc : d.cutouts <;>
      simp [bind, Except.bind, pure, Except.pure] <;>
      first
        | exact ⟨_, rfl⟩
        | (split <;> exact ⟨_, rfl⟩)
  | true =>
    cases hpd : d.pcb_details with
    | none =>
      cases hc : d.cutouts <;>
        simp [bind, Except.bind, pure, Except.pure] <;>
        first
          | exact ⟨_, rfl⟩
          | (split <;> exact ⟨_, rfl⟩)
    | some pcb =>
      cases hcomp : pcb.components with
      | none =>
        cases hc : d.cutouts <;>
          simp [bind, Except.bind, pure, Except.pure, hcomp] <;>
          first
            | exact ⟨_, rfl⟩
            | (split <;> exact ⟨_, rfl⟩)
      | some comps =>
        cases hc : d.cutouts <;>
          simp [bind, Except.bind, pure, Except.pure, hcomp] <;>
          first
            | exact ⟨_, rfl⟩
            | (split <;> exact ⟨_, rfl⟩)

/-- A resolved CAD invocation can only come from a worker that exited 0
with parsed output whose `files` field is the resolved `files`. -/
theorem runCADGenerator_ok_shape (b : WorkerBehavior) (r : CadResult)
    (h : runCADGenerator b = some (Except.ok r)) :
    b.exitCode = some 0 ∧ b.outFiles = some r.files := by
  cases b with
  | hangs => simp [runCADGenerator] at h
  | spawnFailure m => simp [runCADGenerator] at h
  | exits code out err =>
    by_cases hc : code = 0
    · subst hc
      cases out with
      | unparsable raw => simp [runCADGenerator] at h
      | parsed dv =>
        cases hf : dv.files with
        | none => simp [runCADGenerator, hf] at h
        | some fs =>
          simp [runCADGenerator, hf] at h
          refine ⟨rfl, ?_⟩
          simp [WorkerBehavior.outFiles, hf, ← h]
    · simp [runCADGenerator, hc] at h

/-- The per-part loop, under parts that all carry a name and workers
that all settle: it collects exactly one job per part in order, and
converts every per-part worker failure into a feedback warning. -/
theorem assemblyLoop_total (cadB : Nat → WorkerBehavior) (bid : String) (d : DesignData) :
    ∀ (parts : List Part) (i0 : Nat),
      (∀ p ∈ parts, p.part_name ≠ none) →
      (∀ k, k < parts.length → runCADGenerator (cadB (i0 + k)) ≠ none) →
      ∃ acc, assemblyLoop cadB bid d i0 parts = some (Except.ok acc) ∧
        acc.jobs = parts.map (fun p => (mkPartId bid p, mkPartJob d p)) ∧
        ∀ (k : Nat) (hk : k < parts.length) (e : JsErr),
          runCADGenerator (cadB (i0 + k)) = some (Except.error e) →
          ("Warning: Part " ++ ((parts.get ⟨k, hk⟩).part_name.getD "") ++ " generation failed")
            ∈ acc.feedback := by
  intro parts
  induction parts with
  | nil =>
    intro i0 _ _
    refine ⟨{ jobs := [], manifests := [], feedback := [], triangles := 0 }, rfl, rfl, ?_⟩
    intro k hk
    exact absurd hk (by simp)
  | cons p rest ih =>
    intro i0 hnames hnh
    have hpn : p.part_name ≠ none := hnames p (List.mem_cons_self p rest)
    obtain ⟨pn, hpn'⟩ : ∃ pn, p.part_name = some pn := by
      cases hq : p.part_name with
      | none => exact absurd hq hpn
      | some v => exact ⟨v, rfl⟩
    have hnh0 : runCADGenerator (cadB i0) ≠ none := by
      have := hnh 0 (by simp)
      simpa using this
    obtain ⟨res, hres⟩ : ∃ res, runCADGenerator (cadB i0) = some res := by
      cases hq : runCADGenerator (cadB i0) with
      | none => exact absurd hq hnh0
      | some v => exact ⟨v, rfl⟩
    obtain ⟨acc, hloop, hjobs, hfb⟩ :=
      ih (i0 + 1)
        (fun q hq => hnames q (List.mem_cons_of_mem p hq))
        (fun k hk => by
          have := hnh (k + 1) (by simpa using Nat.succ_lt_succ hk)
          have harith : i0 + (k + 1) = i0 + 1 + k := by omega
          rwa [harith] at this)
    cases res with
    | ok pr =>
      refine ⟨{ jobs := (mkPartId bid p, mkPartJob d p) :: acc.jobs
                manifests := mkPartManifest d p pr :: acc.manifests
                feedback := pr.feedback ++ acc.feedback
                triangles := pr.triangleCount.getD 0 + acc.triangles }, ?_, ?_, ?_⟩
      · simp only [assemblyLoop]
        rw [hpn', hres, hloop]
      · simp [hjobs]
      · intro k hk e hke
        cases k with
        | zero =>
          rw [Nat.add_zero] at hke
          rw [hres] at hke
          cases hke
        | succ k =>
          have harith : i0 + (k + 1) = i0 + 1 + k := by omega
          rw [harith] at hke
          have hk2 : k < rest.length := by simpa using Nat.lt_of_succ_lt_succ hk
          have := hfb k hk2 e hke
          simp only [List.get]
          exact List.mem_append_right _ this
    | error e0 =>
      refine ⟨{ jobs := (mkPartId bid p, mkPartJob d p) :: acc.jobs
                manifests := acc.manifests
                feedback := ("Warning: Part " ++ p.part_name.getD "" ++ " generation failed")
                            :: acc.feedback
                triangles := acc.triangles }, ?_, ?_, ?_⟩
      · simp only [assemblyLoop]
        rw [hpn', hres, hloop]
      · simp [hjobs]
      · intro k hk e hke
        cases k with
        | zero =>
          simp only [List.get]
          exact List.mem_cons_self _ _
        | succ k =>
          have harith : i0 + (k + 1) = i0 + 1 + k := by omega
          rw [harith] at hke
          have hk2 : k < rest.length := by simpa using Nat.lt_of_succ_lt_succ hk
          have := hfb k hk2 e hke
          simp only [List.get]
          exact List.mem_cons_of_mem _ this

/-- Every manifest entry produced by the per-part loop originates in a
worker invocation that resolved successfully with exactly those files. -/
theorem assemblyLoop_manifests (cadB : Nat → WorkerBehavior) (bid : String) (d : DesignData) :
    ∀ (parts : List Part) (i0 : Nat) (acc : AsmAccum),
      assemblyLoop cadB bid d i0 parts = some (Except.ok acc) →
      ∀ m ∈ acc.manifests, ∃ j pr, runCADGenerator (cadB j) = some (Except.ok pr) ∧
        m.files = pr.files := by
  intro parts
  induction parts with
  | nil =>
    intro i0 acc hacc m hm
    simp only [assemblyLoop] at hacc
    cases hacc
    simp at hm
  | cons p rest ih =>
    intro i0 acc hacc m hm
    simp only [assemblyLoop] at hacc
    cases hpn : p.part_name with
    | none => rw [hpn] at hacc; cases hacc
    | some pn =>
      rw [hpn] at hacc
      cases hres : runCADGenerator (cadB i0) with
      | none => rw [hres] at hacc; cases hacc
      | some res =>
        rw [hres] at hacc
        cases hloop : assemblyLoop cadB bid d (i0 + 1) rest with
        | none => rw [hloop] at hacc; cases hacc
        | some inner =>
          rw [hloop] at hacc
          cases inner with
          | error e => cases hacc
          | ok acc0 =>
            cases res with
            | ok pr =>
              cases hacc
              simp at hm
              cases hm with
              | inl hm =>
                exact ⟨i0, pr, hres, by rw [hm]; rfl⟩
              | inr hm =>
                exact ih (i0 + 1) acc0 hloop m hm
            | error e =>
              cases hacc
              exact ih (i0 + 1) acc0 hloop m hm

/-! ## Claim theorems -/

/-- C1 (counterexample): the claim says every geometry-stage part
failure aborts the whole assembly build with a fatal error.  On the
concrete two-part assembly whose Base worker exits non-zero,
`buildProduct` instead returns a successful Build Result whose manifest
only lists the Lid and whose feedback carries a warning — the Base
failure is swallowed. -/
theorem c1_geometry_failure_counterexample :
    buildOk resAsm = true ∧
    resultEngineFeedback resAsm = some ["Warning: Part Base generation failed"] ∧
    resultCadPartNames resAsm = some ["Lid"] := by
  refine ⟨by decide, by decide, by decide⟩

/-- C1 (amended): a geometry failure is fatal for single-part builds:
`buildProduct` aborts with the (rewrapped) worker error.  In assembly
builds, each part's failure is caught: the loop emits a feedback warning
naming the part and continues, `runAssemblyCADGenerator` still resolves
successfully, and `buildProduct` still returns a Build Result. -/
theorem c1_geometry_failure_amended :
    (∀ (fc kc bid : String) (raw : DesignData) (ib : WorkerBehavior)
        (cadB : Nat → WorkerBehavior) (pcbB compB : WorkerBehavior) (e : JsErr),
      validateDesignData (autoCorrectDesign raw) = Except.ok () →
      useInterpreterB (autoCorrectDesign raw) = false →
      assemblyBranchB (autoCorrectDesign raw) = false →
      runCADGenerator (cadB 0) = some (Except.error e) →
      buildProduct fc kc bid raw ib cadB pcbB compB
        = some (Except.error (rewrapBuildError e))) ∧
    (∀ (cadB : Nat → WorkerBehavior) (bid : String) (d : DesignData)
        (a : AssemblyBlock) (parts : List Part),
      d.assembly = some a → a.parts = some parts →
      (∀ p ∈ parts, p.part_name ≠ none) →
      (∀ k, k < parts.length → runCADGenerator (cadB k) ≠ none) →
      ∃ res, runAssemblyCADGenerator cadB bid d = some (Except.ok res) ∧
        ∀ (k : Nat) (hk : k < parts.length) (e : JsErr),
          runCADGenerator (cadB k) = some (Except.error e) →
          ("Warning: Part " ++ ((parts.get ⟨k, hk⟩).part_name.getD "") ++ " generation failed")
            ∈ res.feedback) ∧
    (∀ (fc kc bid : String) (raw : DesignData) (ib : WorkerBehavior)
        (cadB : Nat → WorkerBehavior) (pcbB compB : WorkerBehavior)
        (a : AssemblyBlock) (parts : List Part),
      validateDesignData (autoCorrectDesign raw) = Except.ok () →
      useInterpreterB (autoCorrectDesign raw) = false →
      (autoCorrectDesign raw).assembly = some a →
      a.is_assembly = true →
      a.parts = some parts →
      (∀ p ∈ parts, p.part_name ≠ none) →
      (∀ k, k < parts.length → runCADGenerator (cadB k) ≠ none) →
      truthyB (autoCorrectDesign raw).pcb_required = false →
      ∃ r, buildProduct fc kc bid raw ib cadB pcbB compB = some (Except.ok r)) := by
  refine ⟨?_, ?_, ?_⟩
  · intro fc kc bid raw ib cadB pcbB compB e hval huse hasm hcad
    obtain ⟨l, hl⟩ := compat_never_throws fc kc (autoCorrectDesign raw)
    simp only [buildProduct]
    rw [hval, hl]
    simp [huse, hasm, hcad]
  · intro cadB bid d a parts ha hp hnames hnh
    obtain ⟨acc, hloop, hjobs, hfb⟩ :=
      assemblyLoop_total cadB bid d parts 0 hnames
        (fun k hk => by simpa using hnh k hk)
    have hrun : runAssemblyCADGenerator cadB bid d = some (Except.ok
        { files := acc.manifests, feedback := acc.feedback,
          printSettings := a.print_settings.getD [], triangleCount := acc.triangles,
          isAssembly := true,
          assemblyInfo :=
            { totalParts := parts.length, hardware := a.hardware.getD [],
              assemblySteps := a.assembly_steps.getD [],
              toolsRequired := a.tools_required.getD [],
              assemblyTime := jsOrQ a.assembly_time_minutes 0,
              totalPrintTime := jsOrQ a.total_print_time_hours 0 } }) := by
      simp only [runAssemblyCADGenerator, ha, hp, hloop]
    refine ⟨_, hrun, ?_⟩
    intro k hk e hke
    have := hfb k hk e (by simpa using hke)
    simpa using this
  · intro fc kc bid raw ib cadB pcbB compB a parts hval huse ha hia hp hnames hnh hpcb
    obtain ⟨l, hl⟩ := compat_never_throws fc kc (autoCorrectDesign raw)
    obtain ⟨acc, hloop, hjobs, hfb⟩ :=
      assemblyLoop_total cadB bid (autoCorrectDesign raw) parts 0 hnames
        (fun k hk => by simpa using hnh k hk)
    have hasmB : assemblyBranchB (autoCorrectDesign raw) = true := by
      simp [assemblyBranchB, ha, hia, hp]
    obtain ⟨R, hrun⟩ : ∃ R, runAssemblyCADGenerator cadB bid (autoCorrectDesign raw)
        = some (Except.ok R) :=
      ⟨{ files := acc.manifests, feedback := acc.feedback,
         printSettings := a.print_settings.getD [], triangleCount := acc.triangles,
         isAssembly := true,
         assemblyInfo :=
           { totalParts := parts.length, hardware := a.hardware.getD [],
             assemblySteps := a.assembly_steps.getD [],
             toolsRequired := a.tools_required.getD [],
             assemblyTime := jsOrQ a.assembly_time_minutes 0,
             totalPrintTime := jsOrQ a.total_print_time_hours 0 } },
       by simp only [runAssemblyCADGenerator, ha, hp, hloop]⟩
    refine ⟨mkBuildResult bid (autoCorrectDesign raw) (CadOutcome.assemblyR R).cadFiles
      (CadOutcome.assemblyR R).feedback [] l none none, ?_⟩
    simp only [buildProduct]
    rw [hval, hl]
    simp [huse, hasmB, hrun, hpcb]

/-- C1 (witness): the single-part fatal conjunct applied to a concrete
failing worker, and the assembly-swallow conjunct applied to the
two-part fixture whose Base worker fails. -/
theorem c1_geometry_failure_witness :
    (validateDesignData (autoCorrectDesign designB0) = Except.ok () ∧
     buildProduct "python3" "python3" "b" designB0 WorkerBehavior.hangs (fun _ => wbFail)
       WorkerBehavior.hangs WorkerBehavior.hangs
       = some (Except.error (rewrapBuildError (JsErr.exitFailure (cadExitMsg 1 "boom") 1 "boom")))) ∧
    (∃ res, runAssemblyCADGenerator cadBAsm "b" designAsm = some (Except.ok res) ∧
      ∀ (k : Nat) (hk : k < ([partBase, partLid] : List Part).length) (e : JsErr),
        runCADGenerator (cadBAsm k) = some (Except.error e) →
        ("Warning: Part " ++ ((([partBase, partLid] : List Part).get ⟨k, hk⟩).part_name.getD "")
          ++ " generation failed") ∈ res.feedback) :=
  ⟨⟨by decide,
    c1_geometry_failure_amended.1 "python3" "python3" "b" designB0 WorkerBehavior.hangs
      (fun _ => wbFail) WorkerBehavior.hangs WorkerBehavior.hangs
      (JsErr.exitFailure (cadExitMsg 1 "boom") 1 "boom")
      (by decide) (by decide) (by decide) (by decide)⟩,
   c1_geometry_failure_amended.2.1 cadBAsm "b" designAsm asmBlk [partBase, partLid]
     (by decide) (by decide) (by decide) (by decide)⟩

/-- C2 (counterexample): the claim says the undersized wall is
corrected and a correction note is appended to the build's feedback
list.  On Scenario A the build succeeds with the wall raised to 2.5 mm,
yet both the engine feedback list and the compatibility list of the
Build Result are empty — no correction note is recorded anywhere. -/
theorem c2_wall_thickness_counterexample :
    buildOk resA = true ∧
    resultWall resA = some (mkRat 5 2) ∧
    resultEngineFeedback resA = some [] ∧
    resultCompat resA = some [] := by
  refine ⟨by decide, by decide, by decide, by decide⟩

/-- C2 (amended): a present wall thickness below the constraint minimum
is raised by the planner's auto-correction to the recommended value (not
the bare minimum), so validation does not fail; but the Build Result's
feedback comes only from the workers — the correction contributes no
feedback entry (it is only logged to the console). -/
theorem c2_wall_thickness_amended :
    (∀ (d : DesignData) (w : Rat), d.wall_thickness = some w → w ≠ 0 →
      w < (constraintsFor (jsOrS d.units "mm")).min_wall_thickness →
      (autoCorrectDesign d).wall_thickness
        = some (constraintsFor (jsOrS d.units "mm")).recommended_wall_thickness) ∧
    (∀ (fc kc bid : String) (raw : DesignData) (ib : WorkerBehavior)
        (cadB : Nat → WorkerBehavior) (pcbB compB : WorkerBehavior) (cr : CadResult),
      validateDesignData (autoCorrectDesign raw) = Except.ok () →
      useInterpreterB (autoCorrectDesign raw) = false →
      assemblyBranchB (autoCorrectDesign raw) = false →
      truthyB (autoCorrectDesign raw).pcb_required = false →
      runCADGenerator (cadB 0) = some (Except.ok cr) →
      ∃ r, buildProduct fc kc bid raw ib cadB pcbB compB = some (Except.ok r) ∧
        r.designData = autoCorrectDesign raw ∧ r.engineFeedback = cr.feedback) := by
  constructor
  · intro d w hw hnz hlt
    simp [autoCorrectDesign, hw, truthyQ, hnz, hlt]
  · intro fc kc bid raw ib cadB pcbB compB cr hval huse hasm hpcb hcad
    obtain ⟨l, hl⟩ := compat_never_throws fc kc (autoCorrectDesign raw)
    refine ⟨mkBuildResult bid (autoCorrectDesign raw) (CadOutcome.singleR cr).cadFiles
      (CadOutcome.singleR cr).feedback [] l none none, ?_, ?_, ?_⟩
    · simp only [buildProduct]
      rw [hval, hl]
      simp [huse, hasm, hcad, hpcb]
    · simp [mkBuildResult]
    · simp [mkBuildResult, CadOutcome.feedback]

/-- C2 (witness): both conjuncts applied to Scenario A — the 1 mm wall
of `designA` is raised to 2.5 mm, and the concrete build returns the
worker-only feedback. -/
theorem c2_wall_thickness_witness :
    ((autoCorrectDesign designA).wall_thickness
      = some (constraintsFor (jsOrS designA.units "mm")).recommended_wall_thickness) ∧
    (∃ r, buildProduct "python3" "python3" "b" designA WorkerBehavior.hangs
        (fun _ => wbOk ["box.stl"]) WorkerBehavior.hangs WorkerBehavior.hangs
        = some (Except.ok r) ∧
      r.designData = autoCorrectDesign designA ∧
      r.engineFeedback = (cadResultOf ["box.stl"]).feedback) :=
  ⟨c2_wall_thickness_amended.1 designA 1 rfl (by decide) (by decide),
   c2_wall_thickness_amended.2 "python3" "python3" "b" designA WorkerBehavior.hangs
     (fun _ => wbOk ["box.stl"]) WorkerBehavior.hangs WorkerBehavior.hangs
     (cadResultOf ["box.stl"]) (by decide) (by decide) (by decide) (by decide) (by decide)⟩

/-- C3 (counterexample): the claim says a document with two or more
violated fields gets a single error naming every one.  `designC3` has
two out-of-range dimensions (length and width both 5000 mm > 2000 mm),
yet the error is attributed to `length` only and its message never
mentions `width`. -/
theorem c3_validation_aggregation_counterexample :
    valErrField (validateDesignData designC3) = some "length" ∧
    valErrMessageContains "width" (validateDesignData designC3) = some false ∧
    designC3.width = some 5000 ∧ dim_max_mm < 5000 := by
  refine ⟨by decide, by decide, by decide, by decide⟩

/-- C3 (amended): only the missing-required-field phase aggregates:
whenever that phase finds violations, the single `ValidationError`'s
message names every one of them.  The subsequent range checks
(dimensions, wall thickness, units, PCB) fail fast on the first
violation instead. -/
theorem c3_validation_aggregation_amended :
    ∀ d : DesignData, missingFieldErrors d ≠ [] →
      ∃ e, validateDesignData d = Except.error e ∧
        ∀ p ∈ missingFieldErrors d, strContains e.message p.2 = true := by
  intro d hne
  cases hm : missingFieldErrors d with
  | nil => exact absurd hm hne
  | cons e0 rest =>
    refine ⟨{ message := "Validation failed: " ++ joinSep ", " ((e0 :: rest).map Prod.snd)
              field := e0.fst }, ?_, ?_⟩
    · unfold validateDesignData
      rw [hm]
    · intro p hp
      show strContains ("Validation failed: " ++ joinSep ", " ((e0 :: rest).map Prod.snd))
        p.2 = true
      apply strContains_append_right
      exact strContains_joinSep ", " _ _ (List.mem_map_of_mem Prod.snd hp)

/-- C3 (witness): the aggregation conjunct applied to the box missing
both width and height. -/
theorem c3_validation_aggregation_witness :
    missingFieldErrors designMissing ≠ [] ∧
    (∃ e, validateDesignData designMissing = Except.error e ∧
      ∀ p ∈ missingFieldErrors designMissing, strContains e.message p.2 = true) :=
  ⟨by decide, c3_validation_aggregation_amended designMissing (by decide)⟩

/-- C4 (counterexample): the claim says jobs are numbered 1..N by
position in the parts array.  The one-part assembly whose sole part
declares `part_number` 2 produces a job identified `b_part2_Solo` and a
manifest entry numbered 2 — the position-based number 1 appears
nowhere. -/
theorem c4_assembly_jobs_counterexample :
    jobsIds (assemblyJobs cb4 "b" designC4) = some ["b_part2_Solo"] ∧
    asmPartNumbers (runAssemblyCADGenerator cb4 "b" designC4) = some [some 2] ∧
    asmBlkSolo.parts = some [partSolo] := by
  refine ⟨by decide, by decide, by decide⟩

/-- C4 (amended): the Assembly Planner emits exactly one job per
declared part, in declaration order, independent of the workers'
results; each job inherits the parent's unit system (with no part-level
override) and the parent's material, wall thickness and shape type with
part-level overrides applied; the job identifier is numbered by the
part's own `part_number` field, not by its position. -/
theorem c4_assembly_jobs_amended :
    ∀ (cadB : Nat → WorkerBehavior) (bid : String) (d : DesignData)
      (a : AssemblyBlock) (parts : List Part),
      d.assembly = some a → a.parts = some parts →
      (∀ p ∈ parts, p.part_name ≠ none) →
      (∀ k, k < parts.length → runCADGenerator (cadB k) ≠ none) →
      assemblyJobs cadB bid d
        = some (Except.ok (parts.map (fun p => (mkPartId bid p, mkPartJob d p)))) := by
  intro cadB bid d a parts ha hp hnames hnh
  obtain ⟨acc, hloop, hjobs, hfb⟩ :=
    assemblyLoop_total cadB bid d parts 0 hnames
      (fun k hk => by simpa using hnh k hk)
  simp only [assemblyJobs, ha, hp, hloop, hjobs]

/-- C4 (witness): the amended theorem applied to the one-part fixture. -/
theorem c4_assembly_jobs_witness :
    assemblyJobs cb4 "b" designC4
      = some (Except.ok (([partSolo] : List Part).map
          (fun p => (mkPartId "b" p, mkPartJob designC4 p)))) :=
  c4_assembly_jobs_amended cb4 "b" designC4 asmBlkSolo [partSolo]
    (by decide) (by decide) (by decide) (by decide)

/-- C5 (confirmed): the Process Runner's exit-code contract — a
non-zero exit rejects with the diagnostic text attached verbatim,
regardless of the output stream; a zero exit with parsed output resolves
to exactly the parsed files; a zero exit with unparsable output rejects
with a distinct parse error rather than succeeding. -/
theorem c5_process_runner_exit_contract :
    (∀ (code : Int) (out : StdoutDoc) (err : String), code ≠ 0 →
      runCADGenerator (WorkerBehavior.exits code out err)
        = some (Except.error (JsErr.exitFailure (cadExitMsg code err) code err))) ∧
    (∀ (dv : OutDoc) (err : String) (fs : List String), dv.files = some fs →
      ∃ r, runCADGenerator (WorkerBehavior.exits 0 (StdoutDoc.parsed dv) err)
        = some (Except.ok r) ∧ r.files = fs) ∧
    (∀ (raw err : String),
      runCADGenerator (WorkerBehavior.exits 0 (StdoutDoc.unparsable raw) err)
        = some (Except.error (JsErr.parseFailure
            ("Failed to parse CAD generator output: " ++ raw)))) := by
  refine ⟨?_, ?_, ?_⟩
  · intro code out err h
    simp [runCADGenerator, h]
  · intro dv err fs h
    exact ⟨{ files := fs, feedback := (cadScan err).1, printSettings := (cadScan err).2,
             triangleCount := dv.triangle_count, fileSize := dv.file_size },
           by simp [runCADGenerator, h], rfl⟩
  · intro raw err
    simp [runCADGenerator]

/-- C5 (witness): the non-zero-exit and zero-exit conjuncts applied to
concrete behaviours. -/
theorem c5_process_runner_exit_contract_witness :
    (runCADGenerator (WorkerBehavior.exits 1 (StdoutDoc.parsed { files := some ["a"] }) "diag")
      = some (Except.error (JsErr.exitFailure (cadExitMsg 1 "diag") 1 "diag"))) ∧
    (∃ r, runCADGenerator (WorkerBehavior.exits 0 (StdoutDoc.parsed { files := some ["a"] }) "")
      = some (Except.ok r) ∧ r.files = ["a"]) :=
  ⟨c5_process_runner_exit_contract.1 1 (StdoutDoc.parsed { files := some ["a"] }) "diag"
     (by decide),
   c5_process_runner_exit_contract.2.1 { files := some ["a"] } "" ["a"] rfl⟩

/-- C6 (counterexample): the claim says a tool-unavailable layout
failure leaves the Build Result with layout files absent *and a feedback
note*.  On the concrete PCB build whose layout worker fails with the
KiCad-not-installed message, the build succeeds with no PCB files but
both the engine feedback list and the compatibility list are empty — no
note is recorded (the degradation is only logged to the console). -/
theorem c6_pcb_degradation_counterexample :
    buildOk resC6 = true ∧
    resultPcbFiles resC6 = some none ∧
    resultEngineFeedback resC6 = some [] ∧
    resultCompat resC6 = some [] := by
  refine ⟨by decide, by decide, by decide, by decide⟩

/-- C6 (amended): a layout-stage failure whose error message carries the
KiCad-not-installed marker does not fail the build — the Build Result is
returned with layout files absent, but no feedback note is appended (the
feedback stays exactly the geometry worker's); a layout-stage failure
without that marker fails the whole build. -/
theorem c6_pcb_degradation_amended :
    ∀ (fc kc bid : String) (raw : DesignData) (ib : WorkerBehavior)
      (cadB : Nat → WorkerBehavior) (pcbB compB : WorkerBehavior)
      (cr : CadResult) (e : JsErr),
      validateDesignData (autoCorrectDesign raw) = Except.ok () →
      useInterpreterB (autoCorrectDesign raw) = false →
      assemblyBranchB (autoCorrectDesign raw) = false →
      runCADGenerator (cadB 0) = some (Except.ok cr) →
      truthyB (autoCorrectDesign raw).pcb_required = true →
      runPCBGenerator pcbB = some (Except.error e) →
      ((strContains e.message kicadMarker = true →
         ∃ r, buildProduct fc kc bid raw ib cadB pcbB compB = some (Except.ok r) ∧
           r.files_pcb = none ∧ r.engineFeedback = cr.feedback) ∧
       (strContains e.message kicadMarker = false →
         buildProduct fc kc bid raw ib cadB pcbB compB
           = some (Except.error (rewrapBuildError e)))) := by
  intro fc kc bid raw ib cadB pcbB compB cr e hval huse hasm hcad hpcb hpe
  obtain ⟨l, hl⟩ := compat_never_throws fc kc (autoCorrectDesign raw)
  constructor
  · intro hmark
    refine ⟨mkBuildResult bid (autoCorrectDesign raw) (CadOutcome.singleR cr).cadFiles
      (CadOutcome.singleR cr).feedback [] l none none, ?_, ?_, ?_⟩
    · simp only [buildProduct]
      rw [hval, hl]
      simp [huse, hasm, hcad, hpcb, hpe, hmark]
    · simp [mkBuildResult]
    · simp [mkBuildResult, CadOutcome.feedback]
  · intro hmark
    simp only [buildProduct]
    rw [hval, hl]
    simp [huse, hasm, hcad, hpcb, hpe, hmark]

/-- C6 (witness): the amended theorem applied to the concrete PCB build,
in both the degraded (marker present) and fatal (marker absent)
directions. -/
theorem c6_pcb_degradation_witness :
    (∃ r, buildProduct "python3" "python3" "b" designC6 WorkerBehavior.hangs
        (fun _ => wbOk ["enc.stl"]) pcbFailKicad WorkerBehavior.hangs
        = some (Except.ok r) ∧
      r.files_pcb = none ∧ r.engineFeedback = (cadResultOf ["enc.stl"]).feedback) ∧
    (buildProduct "python3" "python3" "b" designC6 WorkerBehavior.hangs
        (fun _ => wbOk ["enc.stl"]) pcbFailOther WorkerBehavior.hangs
      = some (Except.error (rewrapBuildError
          (JsErr.exitFailure ("PCB generator failed with code 1: Some other crash")
            1 "Some other crash")))) :=
  ⟨(c6_pcb_degradation_amended "python3" "python3" "b" designC6 WorkerBehavior.hangs
      (fun _ => wbOk ["enc.stl"]) pcbFailKicad WorkerBehavior.hangs
      (cadResultOf ["enc.stl"])
      (JsErr.exitFailure
        ("PCB generator failed with code 1: Error: KiCad Python API is not installed")
        1 "Error: KiCad Python API is not installed")
      (by decide) (by decide) (by decide) (by decide) (by decide) (by decide)).1 (by decide),
   (c6_pcb_degradation_amended "python3" "python3" "b" designC6 WorkerBehavior.hangs
      (fun _ => wbOk ["enc.stl"]) pcbFailOther WorkerBehavior.hangs
      (cadResultOf ["enc.stl"])
      (JsErr.exitFailure ("PCB generator failed with code 1: Some other crash")
        1 "Some other crash")
      (by decide) (by decide) (by decide) (by decide) (by decide) (by decide)).2 (by decide)⟩

/-- C7 (counterexample): the claim says a worker that never terminates
is killed and the job fails with a TimeoutError.  On the concrete valid
box design whose geometry worker hangs, `buildProduct` never settles at
all — no error (timeout or otherwise) is ever produced. -/
theorem c7_no_timeout_counterexample :
    buildProduct "python3" "python3" "b" designB0 WorkerBehavior.hangs
      (fun _ => WorkerBehavior.hangs) WorkerBehavior.hangs WorkerBehavior.hangs = none := by
  decide

/-- C7 (amended): no worker invocation has a wall-clock budget — the
orchestrator registers no timer and never terminates a worker, so a
geometry worker that never terminates leaves the whole build pending
forever (the pipeline yields no result, and in particular no
TimeoutError exists anywhere in the code). -/
theorem c7_no_timeout_amended :
    ∀ (fc kc bid : String) (raw : DesignData) (ib : WorkerBehavior)
      (cadB : Nat → WorkerBehavior) (pcbB compB : WorkerBehavior),
      validateDesignData (autoCorrectDesign raw) = Except.ok () →
      useInterpreterB (autoCorrectDesign raw) = false →
      assemblyBranchB (autoCorrectDesign raw) = false →
      cadB 0 = WorkerBehavior.hangs →
      buildProduct fc kc bid raw ib cadB pcbB compB = none := by
  intro fc kc bid raw ib cadB pcbB compB hval huse hasm hcb
  obtain ⟨l, hl⟩ := compat_never_throws fc kc (autoCorrectDesign raw)
  simp only [buildProduct]
  rw [hval, hl]
  simp [huse, hasm, hcb, runCADGenerator]

/-- C7 (witness): the amended theorem applied to the concrete valid box
design with a hanging geometry worker. -/
theorem c7_no_timeout_witness :
    buildProduct "py" "py" "w" designB0 WorkerBehavior.hangs
      (fun _ => WorkerBehavior.hangs) WorkerBehavior.hangs WorkerBehavior.hangs = none :=
  c7_no_timeout_amended "py" "py" "w" designB0 WorkerBehavior.hangs
    (fun _ => WorkerBehavior.hangs) WorkerBehavior.hangs WorkerBehavior.hangs
    (by decide) (by decide) (by decide) rfl

/-- C8 (confirmed): a file reference enters a manifest only through a
worker that exited zero with parsed output — for single parts the
resolved files are exactly the parsed `files`, and every per-part entry
of an assembly result comes from some worker invocation that exited zero
with exactly those files; failed parts contribute no entry. -/
theorem c8_manifest_only_on_success :
    (∀ (b : WorkerBehavior) (r : CadResult), runCADGenerator b = some (Except.ok r) →
      b.exitCode = some 0 ∧ b.outFiles = some r.files) ∧
    (∀ (cadB : Nat → WorkerBehavior) (bid : String) (d : DesignData) (res : AssemblyResult),
      runAssemblyCADGenerator cadB bid d = some (Except.ok res) →
      ∀ m ∈ res.files, ∃ j, (cadB j).exitCode = some 0 ∧ (cadB j).outFiles = some m.files) := by
  constructor
  · exact runCADGenerator_ok_shape
  · intro cadB bid d res h m hm
    cases ha : d.assembly with
    | none =>
      simp only [runAssemblyCADGenerator, ha] at h
      simp at h
    | some a =>
      cases hp : a.parts with
      | none =>
        simp only [runAssemblyCADGenerator, ha, hp] at h
        simp at h
      | some parts =>
        cases hloop : assemblyLoop cadB bid d 0 parts with
        | none =>
          simp only [runAssemblyCADGenerator, ha, hp, hloop] at h
          simp at h
        | some inner =>
          cases inner with
          | error e =>
            simp only [runAssemblyCADGenerator, ha, hp, hloop] at h
            simp at h
          | ok acc =>
            simp only [runAssemblyCADGenerator, ha, hp, hloop] at h
            cases h
            have hm2 : m ∈ acc.manifests := hm
            obtain ⟨j, pr, hj, hf⟩ := assemblyLoop_manifests cadB bid d parts 0 acc hloop m hm2
            obtain ⟨h1, h2⟩ := runCADGenerator_ok_shape (cadB j) pr hj
            exact ⟨j, h1, by rw [hf]; exact h2⟩

/-- C8 (witness): the single-part conjunct applied to a concrete
zero-exit worker. -/
theorem c8_manifest_only_on_success_witness :
    (wbOk ["a.stl"]).exitCode = some 0 ∧
    (wbOk ["a.stl"]).outFiles = some (cadResultOf ["a.stl"]).files :=
  c8_manifest_only_on_success.1 (wbOk ["a.stl"]) (cadResultOf ["a.stl"]) (by decide)

/-- C9 (confirmed): the Compatibility Checker returns an ordered list of
advisory warnings for every design document and never throws — every
potentially-throwing array access in its source sits behind a truthiness
short-circuit, so the embedded checker always returns `Except.ok`. -/
theorem c9_compat_checker_never_throws (fc kc : String) (d : DesignData) :
    ∃ l, checkEngineCompatibility fc kc d = Except.ok l :=
  compat_never_throws fc kc d

/-- C10 (confirmed): whenever validation passes and the CAD run
succeeds, `buildProductFromDesign` cannot return its Build Result: the
return-value construction evaluates the unbound identifier `pcbFiles`,
so the caller always receives a ReferenceError instead. -/
theorem c10_pcbfiles_reference_error :
    ∀ (bid : String) (d : DesignData) (cadB : WorkerBehavior) (cr : CadResult),
      validateDesignData d = Except.ok () →
      runCADGenerator cadB = some (Except.ok cr) →
      buildProductFromDesign bid d cadB
        = some (Except.error (JsErr.referenceError "pcbFiles is not defined")) := by
  intro bid d cadB cr hval hcad
  have hscope : ¬ ("pcbFiles" ∈ buildProductFromDesignScope) := by decide
  simp only [buildProductFromDesign]
  rw [hval, hcad]
  simp [resolveIdent, hscope]

/-- C10 (witness): the theorem applied to the concrete valid box design
with a succeeding CAD worker. -/
theorem c10_pcbfiles_reference_error_witness :
    buildProductFromDesign "b" designB0 (wbOk ["x.stl"])
      = some (Except.error (JsErr.referenceError "pcbFiles is not defined")) :=
  c10_pcbfiles_reference_error "b" designB0 (wbOk ["x.stl"]) (cadResultOf ["x.stl"])
    (by decide) (by decide)

end ProductBuilder
